import Mathlib

/-!
Verification of the Win32 debugger-core plugin
(src/plugins/DebuggerCore/win32/DebuggerCore.cpp).

The development shallowly embeds the debug-session state machine: the
session state (target process, thread registry, active thread), the
event-translation wait loop `wait_debug_event`, and the lifecycle
operations `attach`, `detach`, `kill` and `open`, plus the process
enumerator helper `parent_pid`.

OS interactions are made explicit: the stream of raw debug notifications
that WaitForDebugEvent would deliver is a list consumed by the loop (an
empty list models the wait failing / timing out), and the side-effecting
OS calls the code issues (ContinueDebugEvent via resume, CloseHandle,
TerminateProcess, ...) are recorded as an action trace so that theorems
can speak about them.
-/

namespace Win32Core

/-- Dispositions passed to the resume primitive: edb::DEBUG_CONTINUE,
edb::DEBUG_EXCEPTION_NOT_HANDLED, edb::DEBUG_STOP. -/
inductive Disposition where
  | debugContinue
  | debugExceptionNotHandled
  | debugStop
  deriving DecidableEq, Repr

/-- The payload union of a raw DEBUG_EVENT, restricted to the fields the
code actually reads.  Handles and addresses are modelled as plain Nat. -/
inductive EventInfo where
  /-- CREATE_THREAD_DEBUG_EVENT: hThread, lpStartAddress, lpThreadLocalBase. -/
  | createThread (hThread startAddress tlsBase : Nat)
  /-- EXIT_THREAD_DEBUG_EVENT. -/
  | exitThread
  /-- CREATE_PROCESS_DEBUG_EVENT: hFile, hProcess, hThread, lpStartAddress,
  lpThreadLocalBase. -/
  | createProcess (hFile hProcess hThread startAddress tlsBase : Nat)
  /-- LOAD_DLL_DEBUG_EVENT: hFile. -/
  | loadDll (hFile : Nat)
  /-- EXIT_PROCESS_DEBUG_EVENT. -/
  | exitProcess
  /-- EXCEPTION_DEBUG_EVENT. -/
  | exception
  /-- RIP_EVENT. -/
  | rip
  /-- Any other debug event code (falls in the default branch). -/
  | other
  deriving DecidableEq, Repr

/-- A raw DEBUG_EVENT: dwProcessId, dwThreadId, and the code+union. -/
structure RawEvent where
  processId : Nat
  threadId : Nat
  info : EventInfo
  deriving DecidableEq, Repr

/-- A registry entry (PlatformThread).  Modelled from the spec: the
PlatformThread constructor is not under src/; per the spec a
DebuggedThread carries a handle granting control access, the start
address and the thread-local-storage base, taken from the creation
payload. -/
structure DebuggedThread where
  hThread : Nat
  startAddress : Nat
  tlsBase : Nat
  deriving DecidableEq, Repr

/-- The target (PlatformProcess).  Modelled from the spec: the
PlatformProcess constructor is not under src/; per the spec a
DebuggedProcess carries the process identifier, a control handle and
the most recent raw event payload (lastEvent_, stamped by the wait
loop). -/
structure DebuggedProcess where
  pid : Nat
  hProcess : Nat
  lastEvent : Option RawEvent
  deriving DecidableEq, Repr

/-- The thread registry threads_: a QMap from thread id to thread,
embedded as an association list with at most one entry per key. -/
abbrev Registry := List (Nat × DebuggedThread)

/-- QMap::remove — drops the entry with the given key, if any. -/
def Registry.remove (r : Registry) (k : Nat) : Registry :=
  List.filter (fun p => p.1 != k) r

/-- QMap::insert — inserts, replacing any previous entry for the key. -/
def Registry.insert (r : Registry) (k : Nat) (v : DebuggedThread) : Registry :=
  (k, v) :: Registry.remove r k

/-- QMap lookup by key: some value, or none when the key is unknown. -/
def Registry.lookup (r : Registry) (k : Nat) : Option DebuggedThread :=
  (List.find? (fun p => p.1 == k) r).map Prod.snd

/-- Number of registry entries stored under the given key. -/
def Registry.countKey (r : Registry) (k : Nat) : Nat :=
  (List.filter (fun p => p.1 == k) r).length

/-- The mutable session state of DebuggerCore: process_, threads_,
active_thread_. -/
structure CoreState where
  process : Option DebuggedProcess
  threads : Registry
  activeThread : Nat
  deriving DecidableEq

/-- Freshly constructed core: no target, empty registry. -/
def initState : CoreState :=
  { process := none, threads := ([] : List (Nat × DebuggedThread)), activeThread := 0 }

/-- Modelled from the spec: DebuggerCore::attached() is declared in
DebuggerCore.h, which is not under src/.  The spec invariant states that
the target handle is non-null iff the core reports itself attached. -/
def attached (s : CoreState) : Bool :=
  s.process.isSome

/-- OS-visible side effects the code issues, recorded as a trace. -/
inductive Action where
  /-- process_->resume(d) / ContinueDebugEvent with the given disposition. -/
  | resume (d : Disposition)
  /-- CloseHandle on a one-shot event handle. -/
  | closeHandle (h : Nat)
  /-- TerminateProcess on the target handle. -/
  | terminateProcess (h : Nat)
  deriving DecidableEq, Repr

/-- Status returned by the lifecycle operations: Status::Ok or an error
with a descriptive string. -/
inductive Status where
  | ok
  | error (msg : String)
  deriving DecidableEq, Repr

/-- The switch(de.dwDebugEventCode) dispatch of wait_debug_event, run
after active_thread_ has been set to the notification thread id.
Returns the updated state, the OS actions issued inside the switch, and
the propagate flag. -/
def dispatch (s : CoreState) (de : RawEvent) : CoreState × List Action × Bool :=
  match de.info with
  | EventInfo.createThread hThread sa tls =>
      ({ s with threads := Registry.insert s.threads s.activeThread
                  { hThread := hThread, startAddress := sa, tlsBase := tls } },
       [], false)
  | EventInfo.exitThread =>
      ({ s with threads := Registry.remove s.threads s.activeThread }, [], false)
  | EventInfo.createProcess hFile hProcess hThread sa tls =>
      ({ s with
           process := some { pid := de.processId, hProcess := hProcess, lastEvent := none },
           threads := Registry.insert s.threads s.activeThread
             { hThread := hThread, startAddress := sa, tlsBase := tls } },
       [Action.closeHandle hFile], false)
  | EventInfo.loadDll hFile =>
      (s, [Action.closeHandle hFile], false)
  | EventInfo.exitProcess =>
      ({ s with process := none },
       [Action.resume Disposition.debugContinue], true)
  | EventInfo.exception =>
      (s, [], true)
  | EventInfo.rip =>
      (s, [], false)
  | EventInfo.other =>
      (s, [], false)

/-- The stamping step after the switch: if(auto p = process_.get())
p->lastEvent_ = de.  A null target (process-exit just ran) skips it. -/
def stampLast (s : CoreState) (de : RawEvent) : CoreState :=
  match s.process with
  | none => s
  | some p => { s with process := some { p with lastEvent := some de } }

/-- One full iteration of the wait loop body for one notification:
record the active thread, dispatch, stamp the payload, and, when not
propagating, issue the automatic resume with exception-not-handled
semantics.  Returns (state, actions, propagate). -/
def stepEvent (s : CoreState) (de : RawEvent) : CoreState × List Action × Bool :=
  let s1 := { s with activeThread := de.threadId }
  let r := dispatch s1 de
  let s2 := stampLast r.1 de
  if r.2.2 then
    (s2, r.2.1, true)
  else
    (s2, r.2.1 ++ [Action.resume Disposition.debugExceptionNotHandled], false)

/-- The while(WaitForDebugEvent(...)) loop over the notification stream.
An exhausted stream models WaitForDebugEvent returning false (timeout),
upon which the function returns nullptr. -/
def waitLoop : CoreState → List RawEvent → Option RawEvent × CoreState × List Action
  | s, [] => (none, s, [])
  | s, de :: rest =>
      let r := stepEvent s de
      if r.2.2 then
        (some de, r.1, r.2.1)
      else
        let w := waitLoop r.1 rest
        (w.1, w.2.1, r.2.1 ++ w.2.2)

/-- DebuggerCore::wait_debug_event.  msecs is the timeout argument; the
code maps 0 to INFINITE and otherwise passes it through, but the bounded
wait itself is an OS concern: here the end of the stream models the wait
not producing a notification.  Returns the propagated event (nullptr as
none), the final state and the issued OS actions. -/
def wait_debug_event (s : CoreState) (msecs : Nat) (stream : List RawEvent) :
    Option RawEvent × CoreState × List Action :=
  let _ := msecs
  if attached s then waitLoop s stream else (none, s, [])

/-- DebuggerCore::detach.  When attached: clear breakpoints (an external
collaborator call with no effect on the session state), ContinueDebugEvent
with DBG_CONTINUE, DebugActiveProcessStop, null the target and clear the
registry.  Always returns Status::Ok. -/
def detach (s : CoreState) : CoreState × Status :=
  if attached s then
    ({ s with process := none, threads := ([] : List (Nat × DebuggedThread)) }, Status.ok)
  else
    (s, Status.ok)

/-- DebuggerCore::attach.  Runs detach first, then DebugActiveProcess.
The OS outcome is the parameter os: none models DebugActiveProcess
failing; some h models it succeeding with PlatformProcess acquiring
handle h for the pid (modelled from the spec, the constructor being
outside src/). -/
def attach (s : CoreState) (pid : Nat) (os : Option Nat) : CoreState × Status :=
  let s1 := (detach s).1
  match os with
  | some h =>
      ({ s1 with process := some { pid := pid, hProcess := h, lastEvent := none } },
       Status.ok)
  | none =>
      (s1, Status.error "Error DebuggerCore::attach")

/-- DebuggerCore::kill.  Only when the target pointer is non-null:
TerminateProcess on its handle, then the full detach sequence.  With no
target the body is skipped entirely. -/
def kill (s : CoreState) : CoreState × List Action :=
  match s.process with
  | some p => ((detach s).1, [Action.terminateProcess p.hProcess])
  | none => (s, [])

/-- A file path, split as QFileInfo sees it: the directory part and the
file name.  Qt semantics: canonicalPath() is the canonical path of the
directory excluding the file name; canonicalFilePath() includes it. -/
structure FilePath where
  dir : String
  file : String
  deriving DecidableEq, Repr

/-- QFileInfo(path).canonicalPath(): the directory, file name excluded. -/
def canonicalPath (p : FilePath) : String := p.dir

/-- QFileInfo(path).canonicalFilePath(): directory plus file name. -/
def canonicalFilePath (p : FilePath) : String := p.dir ++ "/" ++ p.file

/-- The working-directory resolution of DebuggerCore::open: the caller
cwd when non-empty, else QFileInfo(path).canonicalPath(). -/
def resolveCwd (path : FilePath) (cwd : String) : String :=
  if cwd = "" then canonicalPath path else cwd

/-- The command-line construction of DebuggerCore::open: a quoted
QFileInfo(path).canonicalPath() first, then each argument appended after
a space. -/
def buildCommandLine (path : FilePath) (args : List String) : String :=
  List.foldl (fun acc a => acc ++ " " ++ a)
    ("\"" ++ canonicalPath path ++ "\"") args

/-- The request handed to CreateProcessW: application image, writable
command line, working directory. -/
structure CreateProcessRequest where
  application : FilePath
  commandLine : String
  workingDir : String
  deriving DecidableEq, Repr

/-- The PROCESS_INFORMATION block CreateProcessW fills on success. -/
structure ProcessInformation where
  hProcess : Nat
  hThread : Nat
  processId : Nat
  threadId : Nat
  deriving DecidableEq, Repr

/-- DebuggerCore::open.  Detach first, resolve the working directory,
build the command line, call CreateProcessW (outcome modelled by os).
On success: active_thread_ := dwThreadId, CloseHandle(hThread), drop the
debug privilege on the child, bind the returned process handle as the
target.  On failure: an open-failure error, no session. -/
def openCore (s : CoreState) (path : FilePath) (cwd : String) (args : List String)
    (os : Option ProcessInformation) :
    CoreState × CreateProcessRequest × List Action × Status :=
  let s1 := (detach s).1
  let req : CreateProcessRequest :=
    { application := path
      commandLine := buildCommandLine path args
      workingDir := resolveCwd path cwd }
  match os with
  | some pi =>
      ({ s1 with
           activeThread := pi.threadId,
           process := some { pid := pi.processId, hProcess := pi.hProcess, lastEvent := none } },
       req, [Action.closeHandle pi.hThread], Status.ok)
  | none =>
      (s1, req, [], Status.error "Error DebuggerCore::open")

/-- One PROCESSENTRY32 row of the toolhelp snapshot: th32ProcessID and
th32ParentProcessID. -/
structure ProcEntry where
  pid : Nat
  parentPid : Nat
  deriving DecidableEq, Repr

/-- The fallback parent id DebuggerCore::parent_pid starts from. -/
def unknownParent : Nat := 1

/-- DebuggerCore::parent_pid: walk the snapshot rows in order; on the
first row whose th32ProcessID matches, return its th32ParentProcessID;
otherwise the default 1 survives. -/
def parent_pid : List ProcEntry → Nat → Nat
  | [], _ => unknownParent
  | e :: rest, pid => if pid = e.pid then e.parentPid else parent_pid rest pid

/-! ## Registry lemmas -/

theorem Registry.remove_eq_of_not_mem (r : Registry) (k : Nat)
    (h : k ∉ List.map Prod.fst r) : Registry.remove r k = r := by
  unfold Registry.remove
  rw [List.filter_eq_self]
  intro p hp
  simp only [bne_iff_ne, ne_eq, decide_eq_true_eq]
  intro hk
  exact h (List.mem_map.mpr ⟨p, hp, hk⟩)

theorem Registry.lookup_eq_none_of_not_mem (r : Registry) (k : Nat)
    (h : k ∉ List.map Prod.fst r) : Registry.lookup r k = none := by
  unfold Registry.lookup
  rw [List.find?_eq_none.mpr]
  · rfl
  · intro p hp
    simp only [beq_iff_eq]
    intro hk
    exact h (List.mem_map.mpr ⟨p, hp, hk⟩)

theorem Registry.countKey_remove_self (r : Registry) (k : Nat) :
    Registry.countKey (Registry.remove r k) k = 0 := by
  unfold Registry.countKey Registry.remove
  rw [List.filter_filter, List.length_eq_zero, List.filter_eq_nil_iff]
  intro p _
  simp

theorem Registry.countKey_insert_self (r : Registry) (k : Nat) (v : DebuggedThread) :
    Registry.countKey (Registry.insert r k v) k = 1 := by
  unfold Registry.insert
  have h0 := Registry.countKey_remove_self r k
  unfold Registry.countKey at *
  simp [List.filter, h0]

theorem Registry.lookup_insert_self (r : Registry) (k : Nat) (v : DebuggedThread) :
    Registry.lookup (Registry.insert r k v) k = some v := by
  unfold Registry.lookup Registry.insert
  simp [List.find?]

/-! ## Claim theorems -/

/-- C1: a raw notification whose kind is neither an exception nor a
process exit (thread created/exited, process created, module loaded,
diagnostic signal, or unrecognized) is never returned as a normalized
event on that iteration of wait_debug_event: the propagate flag stays
false, the iteration ends with an automatic resume carrying
exception-not-handled semantics, and the wait continues on the rest of
the notification stream. -/
theorem c1_nonpropagating_kinds_loop
    (s : CoreState) (de : RawEvent) (rest : List RawEvent) (msecs : Nat)
    (hAtt : attached s = true)
    (hExc : de.info ≠ EventInfo.exception)
    (hExit : de.info ≠ EventInfo.exitProcess) :
    (stepEvent s de).2.2 = false ∧
    List.getLast? (stepEvent s de).2.1 =
      some (Action.resume Disposition.debugExceptionNotHandled) ∧
    wait_debug_event s msecs (de :: rest) =
      ((waitLoop (stepEvent s de).1 rest).1,
       (waitLoop (stepEvent s de).1 rest).2.1,
       (stepEvent s de).2.1 ++ (waitLoop (stepEvent s de).1 rest).2.2) := by
  obtain ⟨pid, tid, info⟩ := de
  cases info <;>
    simp_all [wait_debug_event, waitLoop, stepEvent, dispatch]

/-- C1 witness. -/
theorem c1_nonpropagating_kinds_loop_witness :
    (let s : CoreState :=
       { process := some { pid := 5, hProcess := 10, lastEvent := none },
         threads := [], activeThread := 0 }
     let de : RawEvent := { processId := 5, threadId := 7, info := EventInfo.loadDll 42 }
     (stepEvent s de).2.2 = false ∧
     List.getLast? (stepEvent s de).2.1 =
       some (Action.resume Disposition.debugExceptionNotHandled) ∧
     wait_debug_event s 0 [de] =
       ((waitLoop (stepEvent s de).1 []).1,
        (waitLoop (stepEvent s de).1 []).2.1,
        (stepEvent s de).2.1 ++ (waitLoop (stepEvent s de).1 []).2.2)) :=
  c1_nonpropagating_kinds_loop _ _ [] 0 (by decide) (by decide) (by decide)

/-- C2: on a process-exit notification the wait loop issues exactly one
final resume with the neutral continue disposition, discards the
Session's target (so the core no longer reports itself attached), and
propagates the event to the caller without consuming any further
notification from the stream. -/
theorem c2_process_exit_propagates
    (s : CoreState) (de : RawEvent) (rest : List RawEvent) (msecs : Nat)
    (hAtt : attached s = true)
    (hExit : de.info = EventInfo.exitProcess) :
    wait_debug_event s msecs (de :: rest) =
      (some de,
       { s with activeThread := de.threadId, process := none },
       [Action.resume Disposition.debugContinue]) ∧
    attached (wait_debug_event s msecs (de :: rest)).2.1 = false := by
  obtain ⟨pid, tid, info⟩ := de
  subst hExit
  simp_all [wait_debug_event, waitLoop, stepEvent, dispatch, stampLast, attached]

/-- C2 witness. -/
theorem c2_process_exit_propagates_witness :
    (let s : CoreState :=
       { process := some { pid := 5, hProcess := 10, lastEvent := none },
         threads := [(3, { hThread := 8, startAddress := 1, tlsBase := 2 })],
         activeThread := 3 }
     let de : RawEvent := { processId := 5, threadId := 7, info := EventInfo.exitProcess }
     wait_debug_event s 0 [de, de] =
       (some de,
        { s with activeThread := de.threadId, process := none },
        [Action.resume Disposition.debugContinue]) ∧
     attached (wait_debug_event s 0 [de, de]).2.1 = false) :=
  c2_process_exit_propagates _ _ [_] 0 (by decide) rfl

/-- C3: on a process-created notification the translator binds the
reported process handle as the Session's target, closes the file handle
attached to the event, synthesizes a DebuggedThread from the creation
payload, and does not propagate; afterwards the Registry holds exactly
one entry under the reported initial thread id, and looking that id up
yields the synthesized thread. -/
theorem c3_process_created_registry
    (s : CoreState) (pid tid hFile hProc hThr sa tls : Nat)
    (hAtt : attached s = true) :
    (stepEvent s { processId := pid, threadId := tid,
                   info := EventInfo.createProcess hFile hProc hThr sa tls }).2.2 = false ∧
    Action.closeHandle hFile ∈
      (stepEvent s { processId := pid, threadId := tid,
                     info := EventInfo.createProcess hFile hProc hThr sa tls }).2.1 ∧
    (stepEvent s { processId := pid, threadId := tid,
                   info := EventInfo.createProcess hFile hProc hThr sa tls }).1.process =
      some { pid := pid, hProcess := hProc,
             lastEvent := some { processId := pid, threadId := tid,
                                 info := EventInfo.createProcess hFile hProc hThr sa tls } } ∧
    Registry.countKey
      (stepEvent s { processId := pid, threadId := tid,
                     info := EventInfo.createProcess hFile hProc hThr sa tls }).1.threads tid = 1 ∧
    Registry.lookup
      (stepEvent s { processId := pid, threadId := tid,
                     info := EventInfo.createProcess hFile hProc hThr sa tls }).1.threads tid =
      some { hThread := hThr, startAddress := sa, tlsBase := tls } := by
  refine ⟨rfl, by simp [stepEvent, dispatch], rfl, ?_, ?_⟩
  · simpa [stepEvent, dispatch, stampLast] using
      Registry.countKey_insert_self s.threads tid
        { hThread := hThr, startAddress := sa, tlsBase := tls }
  · simpa [stepEvent, dispatch, stampLast] using
      Registry.lookup_insert_self s.threads tid
        { hThread := hThr, startAddress := sa, tlsBase := tls }

/-- C3 witness. -/
theorem c3_process_created_registry_witness :
    (let s : CoreState :=
       { process := some { pid := 5, hProcess := 10, lastEvent := none },
         threads := [], activeThread := 0 }
     (stepEvent s { processId := 5, threadId := 7,
                    info := EventInfo.createProcess 20 11 12 100 200 }).2.2 = false ∧
     Action.closeHandle 20 ∈
       (stepEvent s { processId := 5, threadId := 7,
                      info := EventInfo.createProcess 20 11 12 100 200 }).2.1 ∧
     (stepEvent s { processId := 5, threadId := 7,
                    info := EventInfo.createProcess 20 11 12 100 200 }).1.process =
       some { pid := 5, hProcess := 11,
              lastEvent := some { processId := 5, threadId := 7,
                                  info := EventInfo.createProcess 20 11 12 100 200 } } ∧
     Registry.countKey
       (stepEvent s { processId := 5, threadId := 7,
                      info := EventInfo.createProcess 20 11 12 100 200 }).1.threads 7 = 1 ∧
     Registry.lookup
       (stepEvent s { processId := 5, threadId := 7,
                      info := EventInfo.createProcess 20 11 12 100 200 }).1.threads 7 =
       some { hThread := 12, startAddress := 100, tlsBase := 200 }) :=
  c3_process_created_registry _ 5 7 20 11 12 100 200 (by decide)

/-- C4: starting from a Detached core, a failing attach (DebugActiveProcess
returns false) leaves the state exactly as it was — still detached, no
registry entry created — and returns the distinct attach-failure error;
a successful attach returns success and leaves the core attached with a
non-null target bound to the pid. -/
theorem c4_attach_success_and_failure
    (s : CoreState) (pid h : Nat) (hDet : attached s = false) :
    attach s pid none = (s, Status.error "Error DebuggerCore::attach") ∧
    (attach s pid (some h)).2 = Status.ok ∧
    attached (attach s pid (some h)).1 = true ∧
    (attach s pid (some h)).1.process =
      some { pid := pid, hProcess := h, lastEvent := none } ∧
    (attach s pid (some h)).1.threads = s.threads := by
  cases hq : s.process with
  | some p =>
    exfalso
    unfold attached at hDet
    rw [hq] at hDet
    simp at hDet
  | none =>
    simp [attach, detach, attached, hq]

/-- C4 witness. -/
theorem c4_attach_success_and_failure_witness :
    attach initState 5 none = (initState, Status.error "Error DebuggerCore::attach") ∧
    (attach initState 5 (some 10)).2 = Status.ok ∧
    attached (attach initState 5 (some 10)).1 = true ∧
    (attach initState 5 (some 10)).1.process =
      some { pid := 5, hProcess := 10, lastEvent := none } ∧
    (attach initState 5 (some 10)).1.threads = initState.threads :=
  c4_attach_success_and_failure initState 5 10 (by decide)

/-- C5 counterexample: a reachable state on which the claim fails.  Open
a process, let the wait loop absorb the process-created notification
(registry gains the initial thread) and then observe process exit: the
loop discards the target but leaves the stale registry entry.  Both of
two consecutive detach calls return success, yet the Registry is
non-empty after each of them, contradicting the claim that detach-twice
leaves the Registry empty in every state. -/
theorem c5_detach_counterexample :
    (let s1 := (openCore initState { dir := "C:/dir", file := "a.exe" } "" []
       (some { hProcess := 10, hThread := 11, processId := 5, threadId := 7 })).1
     let s2 := (wait_debug_event s1 0
       [{ processId := 5, threadId := 7, info := EventInfo.createProcess 20 10 11 100 200 },
        { processId := 5, threadId := 7, info := EventInfo.exitProcess }]).2.1
     attached s2 = false ∧
     (detach s2).2 = Status.ok ∧
     (detach (detach s2).1).2 = Status.ok ∧
     (detach s2).1.threads ≠ [] ∧
     (detach (detach s2).1).1.threads ≠ []) := by
  decide

/-- C5 amended: detach never errors — both of two consecutive calls
return success — and when the core is attached it empties the Registry;
but when the core is already Detached it is a pure no-op that leaves the
whole state, Registry included, unchanged (so the Registry is only
guaranteed empty after a detach performed while attached; a stale
registry left by a process-exit notification survives detach).  The
second call never changes the Registry left by the first. -/
theorem c5_detach_idempotent_amended (s : CoreState) :
    (detach s).2 = Status.ok ∧
    (detach (detach s).1).2 = Status.ok ∧
    (attached s = true → (detach s).1.threads = []) ∧
    (attached s = false → detach s = (s, Status.ok)) ∧
    (detach (detach s).1).1.threads = (detach s).1.threads := by
  cases hp : s.process with
  | none => simp [detach, attached, hp]
  | some p => simp [detach, attached, hp]

/-- C5 amended witness. -/
theorem c5_detach_idempotent_amended_witness :
    (detach initState).2 = Status.ok ∧
    (detach (detach initState).1).2 = Status.ok ∧
    (attached initState = true → (detach initState).1.threads = []) ∧
    (attached initState = false → detach initState = (initState, Status.ok)) ∧
    (detach (detach initState).1).1.threads = (detach initState).1.threads :=
  c5_detach_idempotent_amended initState

/-- C6: evaluation of open's command-line and working-directory
construction at a concrete call.  The working directory does default to
the executable's own directory, but the first command-line token is the
quoted canonical *directory* of the executable (QFileInfo::canonicalPath
excludes the file name), not the executable's canonical path — it
differs from the command line the claim (and the code's own
"argv[0] = full path" comment) describes. -/
theorem c6_open_commandline_eval :
    (openCore initState { dir := "C:/dir", file := "a.exe" } "" ["x"]
        (some { hProcess := 10, hThread := 11, processId := 5, threadId := 7 })).2.1.commandLine
      = "\"C:/dir\" x" ∧
    (openCore initState { dir := "C:/dir", file := "a.exe" } "" ["x"]
        (some { hProcess := 10, hThread := 11, processId := 5, threadId := 7 })).2.1.workingDir
      = "C:/dir" ∧
    canonicalFilePath { dir := "C:/dir", file := "a.exe" } = "C:/dir/a.exe" ∧
    ("\"C:/dir\" x" : String) ≠ "\"C:/dir/a.exe\" x" := by
  refine ⟨rfl, rfl, rfl, ?_⟩
  decide

/-- C7 counterexample: on a process-exit notification the target is
discarded before the stamping step, so — contrary to the claim that the
payload is stamped for every notification kind, process-exit included —
right after the iteration there is no target at all, and hence no
stamped payload. -/
theorem c7_stamp_counterexample :
    (let s : CoreState :=
       { process := some { pid := 5, hProcess := 10, lastEvent := none },
         threads := [], activeThread := 3 }
     let de : RawEvent := { processId := 5, threadId := 7, info := EventInfo.exitProcess }
     attached s = true ∧ (stepEvent s de).1.process = none) := by
  decide

/-- C7 amended: after an iteration of the wait loop on any notification,
the active-thread identifier equals the thread identifier carried by
that notification; for every kind other than process-exit the raw
payload is stamped onto the Session's target, while on process-exit the
target has already been discarded when the stamping step runs, so no
payload is recorded and there is no target. -/
theorem c7_active_thread_and_stamp_amended
    (s : CoreState) (de : RawEvent) (hAtt : attached s = true) :
    (stepEvent s de).1.activeThread = de.threadId ∧
    (de.info ≠ EventInfo.exitProcess →
       ∃ p, (stepEvent s de).1.process = some p ∧ p.lastEvent = some de) ∧
    (de.info = EventInfo.exitProcess → (stepEvent s de).1.process = none) := by
  obtain ⟨q, hq⟩ := Option.isSome_iff_exists.mp hAtt
  obtain ⟨pid, tid, info⟩ := de
  cases info <;> simp_all [stepEvent, dispatch, stampLast]

/-- C7 amended witness. -/
theorem c7_active_thread_and_stamp_amended_witness :
    (let s : CoreState :=
       { process := some { pid := 5, hProcess := 10, lastEvent := none },
         threads := [], activeThread := 3 }
     let de : RawEvent := { processId := 5, threadId := 7, info := EventInfo.loadDll 42 }
     (stepEvent s de).1.activeThread = de.threadId ∧
     (de.info ≠ EventInfo.exitProcess →
        ∃ p, (stepEvent s de).1.process = some p ∧ p.lastEvent = some de) ∧
     (de.info = EventInfo.exitProcess → (stepEvent s de).1.process = none)) :=
  c7_active_thread_and_stamp_amended _ _ (by decide)

/-- Scanning a snapshot for an absent pid leaves the default parent. -/
theorem parent_pid_eq_of_absent (snap : List ProcEntry) (q : Nat)
    (h : ∀ x ∈ snap, x.pid ≠ q) : parent_pid snap q = unknownParent := by
  induction snap with
  | nil => rfl
  | cons a rest ih =>
    have hne := h a (List.mem_cons_self a rest)
    simp only [parent_pid]
    rw [if_neg (fun hq => hne hq.symm)]
    exact ih (fun x hx => h x (List.mem_cons_of_mem a hx))

/-- Scanning a snapshot for a pid that occurs exactly once returns that
row's recorded parent. -/
theorem parent_pid_eq_of_mem (snap : List ProcEntry) (e : ProcEntry)
    (hmem : e ∈ snap) (hfirst : ∀ x ∈ snap, x.pid = e.pid → x = e) :
    parent_pid snap e.pid = e.parentPid := by
  induction snap with
  | nil => cases hmem
  | cons a rest ih =>
    by_cases ha : e.pid = a.pid
    · have hae : a = e := hfirst a (List.mem_cons_self a rest) ha.symm
      subst hae
      simp [parent_pid]
    · have hmem2 : e ∈ rest := by
        cases List.mem_cons.mp hmem with
        | inl h => exact absurd (congrArg ProcEntry.pid h) ha
        | inr h => exact h
      have hfirst2 : ∀ x ∈ rest, x.pid = e.pid → x = e :=
        fun x hx => hfirst x (List.mem_cons_of_mem a hx)
      simp only [parent_pid]
      rw [if_neg ha]
      exact ih hmem2 hfirst2

/-- C8: for a pid recorded (once) in the snapshot, parent_pid returns
that row's recorded parent identifier; for a pid absent from the
snapshot it returns the documented fallback value (1, the code's
default). -/
theorem c8_parent_pid_lookup (snap : List ProcEntry) (e : ProcEntry) (q : Nat)
    (hmem : e ∈ snap)
    (hfirst : ∀ x ∈ snap, x.pid = e.pid → x = e)
    (habsent : ∀ x ∈ snap, x.pid ≠ q) :
    parent_pid snap e.pid = e.parentPid ∧ parent_pid snap q = unknownParent :=
  ⟨parent_pid_eq_of_mem snap e hmem hfirst, parent_pid_eq_of_absent snap q habsent⟩

/-- C8 witness: the spec scenario — snapshot with pids 4, 100, 200 and
200's parent 100; parent_pid 200 is 100, parent_pid 9999 the fallback. -/
theorem c8_parent_pid_lookup_witness :
    parent_pid [⟨4, 0⟩, ⟨100, 4⟩, ⟨200, 100⟩] 200 = 100 ∧
    parent_pid [⟨4, 0⟩, ⟨100, 4⟩, ⟨200, 100⟩] 9999 = unknownParent :=
  c8_parent_pid_lookup [⟨4, 0⟩, ⟨100, 4⟩, ⟨200, 100⟩] ⟨200, 100⟩ 9999
    (by decide) (by decide) (by decide)

/-- C9: registry operations are total on unknown thread identifiers —
looking up an id with no entry yields none, and a thread-exit
notification for an id with no entry leaves the Registry exactly as it
was. -/
theorem c9_unknown_thread_safe (s : CoreState) (de : RawEvent)
    (hKind : de.info = EventInfo.exitThread)
    (hUnk : de.threadId ∉ List.map Prod.fst s.threads) :
    Registry.lookup s.threads de.threadId = none ∧
    (stepEvent s de).1.threads = s.threads := by
  refine ⟨Registry.lookup_eq_none_of_not_mem _ _ hUnk, ?_⟩
  have hrm := Registry.remove_eq_of_not_mem s.threads de.threadId hUnk
  obtain ⟨pid, tid, info⟩ := de
  subst hKind
  cases hp : s.process <;> simp_all [stepEvent, dispatch, stampLast]

/-- C9 witness. -/
theorem c9_unknown_thread_safe_witness :
    (let s : CoreState :=
       { process := some { pid := 5, hProcess := 10, lastEvent := none },
         threads := [(7, { hThread := 8, startAddress := 1, tlsBase := 2 })],
         activeThread := 7 }
     let de : RawEvent := { processId := 5, threadId := 9, info := EventInfo.exitThread }
     Registry.lookup s.threads de.threadId = none ∧
     (stepEvent s de).1.threads = s.threads) :=
  c9_unknown_thread_safe _ _ rfl (by decide)

/-- C10: kill on a core with no target is a complete no-op — no
TerminateProcess, no detach sequence, and the session state (target,
Registry, active thread) is returned unchanged. -/
theorem c10_kill_detached_noop (s : CoreState) (h : s.process = none) :
    kill s = (s, []) := by
  simp [kill, h]

/-- C10 witness. -/
theorem c10_kill_detached_noop_witness : kill initState = (initState, []) :=
  c10_kill_detached_noop initState rfl

end Win32Core
